import Mathlib

/-!
# ORB_SLAM2 ROS RGB-D node: the GrabRGBD callback

A shallow embedding of ImageGrabber::GrabRGBD from
Examples/ROS/ORB_SLAM2/src/ros_rgbd.cc.

* Scalars (the float entries of the pose, the double entries of tf and of
  the odometry message) are one type α.  The callback only copies scalars,
  negates them and writes the literals 0, 1 and -1, so the definitions ask
  for no more than Zero, One and Neg on α; theorems add what they need
  (an involutive negation, a commutative ring).
* The collaborators that are not part of this file of the repository
  (cv_bridge::toCvShare, ORB_SLAM2::System::TrackRGBD, ros::Time::now,
  ros::Time::toSec and the Eigen::Quaternionf constructor) are the fields
  of Env.
* Effects (ROS_ERROR, the call to TrackRGBD, sendTransform, publish) are
  returned as the list of events of one call, in the order in which the
  call performs them, together with the state after the call.
-/

namespace ORB_SLAM2

/-! ## Data model -/

/-- The 3x3 matrices tf::Matrix3x3 and Eigen::Matrix3f. -/
abbrev Matrix3x3 (α : Type) := Matrix (Fin 3) (Fin 3) α

/-- The triple tf::Vector3, components x, y, z at indices 0, 1, 2. -/
abbrev Vector3 (α : Type) := Fin 3 → α

/-- A non-empty cv::Mat as TrackRGBD returns it: 4 rows, 4 columns; the entry
at<float>(i,j) is the application to i and j. -/
abbrev Mat4 (α : Type) := Matrix (Fin 4) (Fin 4) α

/-- The cv::Mat returned by TrackRGBD: none is the empty matrix (pose.empty()
holds), some is a 4x4 matrix. -/
abbrev CvMat (α : Type) := Option (Mat4 α)

/-- The rigid transform tf::Transform(basis, origin). -/
structure Transform (α : Type) where
  basis : Matrix3x3 α
  origin : Vector3 α

/-- The value tf::StampedTransform(transform, stamp, frame_id, child_frame_id);
frame_id_ names the parent frame and child_frame_id_ the child frame. -/
structure StampedTransform (α τ : Type) where
  transform : Transform α
  stamp_ : τ
  frame_id_ : String
  child_frame_id_ : String

/-- The coefficients of an Eigen::Quaternionf. -/
structure Quaternionf (α : Type) where
  w : α
  x : α
  y : α
  z : α

/-- The fields of nav_msgs::Odometry that GrabRGBD assigns: header.stamp,
header.frame_id, pose.pose.position and pose.pose.orientation.  All other
fields keep the default value of the message type. -/
structure Odometry (α τ : Type) where
  stamp : τ
  frame_id : String
  position : Vector3 α
  orientation : Quaternionf α

/-- The decoded image cv_bridge::CvImage: its header stamp and its pixels. -/
structure CvImage (τ Img : Type) where
  stamp : τ
  image : Img

/-- What one call of GrabRGBD does to the outside, in order of occurrence. -/
inductive Event (α τ Img : Type) where
  /-- ROS_ERROR with the formatted text -/
  | ROS_ERROR (text : String)
  /-- the call mpSLAM->TrackRGBD(im, depthmap, timestamp) -/
  | TrackRGBD (im depthmap : Img) (timestamp : α)
  /-- the call br.sendTransform(t) -/
  | sendTransform (t : StampedTransform α τ)
  /-- the call odom_pub_.publish(odom) -/
  | publish (odom : Odometry α τ)

/-- The collaborators of GrabRGBD. -/
structure Env (α τ Msg Img σ : Type) where
  /-- cv_bridge::toCvShare: the decoded image, or the text e.what() of the
  cv_bridge::Exception it throws -/
  toCvShare : Msg → Except String (CvImage τ Img)
  /-- ros::Time::toSec of a header stamp -/
  toSec : τ → α
  /-- ORB_SLAM2::System::TrackRGBD run on the engine state: the pose it
  returns and the engine state it leaves -/
  TrackRGBD : σ → Img → Img → α → CvMat α × σ
  /-- ros::Time::now(): the reading the k-th read of the clock returns
  (k counted from 0 over the life of the process) -/
  now : Nat → τ
  /-- Eigen::Quaternionf constructed from a 3x3 matrix -/
  Quaternionf : Matrix3x3 α → Quaternionf α

/-- The state a call of GrabRGBD runs in: the engine behind mpSLAM and the
number of clock reads made so far. -/
structure State (σ : Type) where
  mpSLAM : σ
  reads : Nat

/-! ## The constants and the per-pose values of GrabRGBD -/

section Code

variable {α τ Msg Img σ : Type}

/-- Line 124: tf::Matrix3x3 rh_cameraPose. -/
def rh_cameraPose [Neg α] (pose : Mat4 α) : Matrix3x3 α :=
  !![-pose 0 0, pose 0 1, pose 0 2;
     -pose 1 0, pose 1 1, pose 1 2;
     pose 2 0, -pose 2 1, -pose 2 2]

/-- Line 126: tf::Vector3 rh_cameraTranslation. -/
def rh_cameraTranslation (pose : Mat4 α) : Vector3 α :=
  ![pose 0 3, pose 1 3, pose 2 3]

/-- Lines 129-131: tf::Matrix3x3 rotation270degZX. -/
def rotation270degZX [Zero α] [One α] [Neg α] : Matrix3x3 α :=
  !![0, 0, 1;
     -1, 0, 0;
     0, -1, 0]

/-- Lines 137-139: tf::Matrix3x3 rotatePoseWorld. -/
def rotatePoseWorld [Zero α] [One α] [Neg α] : Matrix3x3 α :=
  !![0, 1, 0;
     0, 0, -1;
     -1, 0, 0]

/-- Line 143: tf::Transform transformCoordSystem. -/
def transformCoordSystem [Zero α] [One α] [Neg α] : Transform α :=
  ⟨rotation270degZX, ![0, 0, 0]⟩

/-- Line 145: tf::Transform transformWorldSystem. -/
def transformWorldSystem [Zero α] [One α] [Neg α] : Transform α :=
  ⟨rotatePoseWorld, ![0, 0, 0]⟩

/-- Line 148: tf::Transform transformCamera. -/
def transformCamera [Neg α] (pose : Mat4 α) : Transform α :=
  ⟨rh_cameraPose pose, rh_cameraTranslation pose⟩

/-- Lines 159-162: Eigen::Matrix3f temp. -/
def temp [Neg α] (pose : Mat4 α) : Matrix3x3 α :=
  !![-pose 0 0, pose 0 1, pose 0 2;
     -pose 1 0, pose 1 1, pose 1 2;
     pose 2 0, -pose 2 1, -pose 2 2]

/-! ## The callback -/

/-- ImageGrabber::GrabRGBD (lines 93-172): the events of the call, in order,
and the state after it. -/
def GrabRGBD [Zero α] [One α] [Neg α] (env : Env α τ Msg Img σ)
    (msgRGB msgD : Msg) (s : State σ) : List (Event α τ Img) × State σ :=
  match env.toCvShare msgRGB with
  | .error e => ([.ROS_ERROR ("cv_bridge exception: " ++ e)], s)
  | .ok cv_ptrRGB =>
  match env.toCvShare msgD with
  | .error e => ([.ROS_ERROR ("cv_bridge exception: " ++ e)], s)
  | .ok cv_ptrD =>
  let timestamp := env.toSec cv_ptrRGB.stamp
  let r := env.TrackRGBD s.mpSLAM cv_ptrRGB.image cv_ptrD.image timestamp
  let track : Event α τ Img := .TrackRGBD cv_ptrRGB.image cv_ptrD.image timestamp
  match r.1 with
  | none => ([track], ⟨r.2, s.reads⟩)
  | some pose =>
    -- the four reads of ros::Time::now(), lines 146, 149, 150 and 153
    let now1 := env.now s.reads
    let now2 := env.now (s.reads + 1)
    let now3 := env.now (s.reads + 2)
    let now4 := env.now (s.reads + 3)
    let odom : Odometry α τ :=
      ⟨now4, "world", ![rh_cameraTranslation pose 0, rh_cameraTranslation pose 1,
        rh_cameraTranslation pose 2], env.Quaternionf (temp pose)⟩
    ([track,
      .sendTransform ⟨transformCoordSystem, now1, "body", "camera_pose"⟩,
      .sendTransform ⟨transformCamera pose, now2, "camera_pose", "pose"⟩,
      .sendTransform ⟨transformWorldSystem, now3, "pose", "world"⟩,
      .publish odom],
     ⟨r.2, s.reads + 4⟩)

end Code

/-! ## Observations on the events of one call -/

section Observe

variable {α τ Img : Type}

/-- The chain links broadcast by sendTransform, in order. -/
def links : List (Event α τ Img) → List (StampedTransform α τ)
  | [] => []
  | .sendTransform t :: es => t :: links es
  | _ :: es => links es

/-- The odometry records published, in order. -/
def odometry : List (Event α τ Img) → List (Odometry α τ)
  | [] => []
  | .publish o :: es => o :: odometry es
  | _ :: es => odometry es

/-- The texts reported through ROS_ERROR, in order. -/
def errors : List (Event α τ Img) → List String
  | [] => []
  | .ROS_ERROR e :: es => e :: errors es
  | _ :: es => errors es

/-- The arguments of the calls of TrackRGBD, in order. -/
def engineCalls : List (Event α τ Img) → List (Img × Img × α)
  | [] => []
  | .TrackRGBD im d t :: es => (im, d, t) :: engineCalls es
  | _ :: es => engineCalls es

/-- The outputs: the events that broadcast a link or publish a record. -/
def outputs : List (Event α τ Img) → List (Event α τ Img)
  | [] => []
  | .sendTransform t :: es => .sendTransform t :: outputs es
  | .publish o :: es => .publish o :: outputs es
  | _ :: es => outputs es

/-- The timestamps carried by the outputs, in order. -/
def stamps : List (Event α τ Img) → List τ
  | [] => []
  | .sendTransform t :: es => t.stamp_ :: stamps es
  | .publish o :: es => o.stamp :: stamps es
  | _ :: es => stamps es

/-- The links with the given parent and child frame names, in order. -/
def linksBetween (parent child : String) (es : List (Event α τ Img)) :
    List (StampedTransform α τ) :=
  (links es).filter (fun l => l.frame_id_ == parent && l.child_frame_id_ == child)

/-- The rotation block R of a pose: rows 0-2, columns 0-2. -/
def rotationBlock (pose : Mat4 α) : Matrix3x3 α :=
  !![pose 0 0, pose 0 1, pose 0 2;
     pose 1 0, pose 1 1, pose 1 2;
     pose 2 0, pose 2 1, pose 2 2]

/-- The translation column t of a pose: rows 0-2 of column 3. -/
def translationColumn (pose : Mat4 α) : Vector3 α :=
  ![pose 0 3, pose 1 3, pose 2 3]

/-- The homogeneous 4x4 pose with rotation block R and translation column t. -/
def poseOf [Zero α] [One α] (R : Matrix3x3 α) (t : Vector3 α) : Mat4 α :=
  !![R 0 0, R 0 1, R 0 2, t 0;
     R 1 0, R 1 1, R 1 2, t 1;
     R 2 0, R 2 1, R 2 2, t 2;
     0, 0, 0, 1]

/-- The standard elementary rotation about the z axis by the angle whose
cosine is c and whose sine is s. -/
def rotZ [Zero α] [One α] [Neg α] (c s : α) : Matrix3x3 α :=
  !![c, -s, 0;
     s, c, 0;
     0, 0, 1]

/-- The standard elementary rotation about the x axis by the angle whose
cosine is c and whose sine is s. -/
def rotX [Zero α] [One α] [Neg α] (c s : α) : Matrix3x3 α :=
  !![1, 0, 0;
     0, c, -s;
     0, s, c]

/-- The sign pattern of step 1 of the transform pipeline applied to a 3x3
matrix: the entries (0,0), (1,0), (2,1) and (2,2) are negated. -/
def signPattern [Neg α] (M : Matrix3x3 α) : Matrix3x3 α :=
  !![-M 0 0, M 0 1, M 0 2;
     -M 1 0, M 1 1, M 1 2;
     M 2 0, -M 2 1, -M 2 2]

end Observe

/-! ## A concrete environment over the integers -/

/-- An environment with integer scalars, natural numbers for messages, images,
stamps and engine states.  Message 0 does not decode, message m > 0 decodes to
image m with stamp m; the engine returns the empty matrix when the depth image
is 1 and otherwise the pose with rotation block R and translation column t.
The quaternion conversion is a stand-in that copies four entries of its
argument: no theorem below depends on what the conversion computes. -/
def sampleEnv (R : Matrix3x3 ℤ) (t : Vector3 ℤ) (clock : Nat → Nat) : Env ℤ Nat Nat Nat Nat where
  toCvShare := fun m => if m = 0 then .error "bad encoding" else .ok ⟨m, m⟩
  toSec := fun t => (t : ℤ)
  TrackRGBD := fun n _ d _ => (if d = 1 then none else some (poseOf R t), n + 1)
  now := clock
  Quaternionf := fun M => ⟨M 0 0, M 0 1, M 0 2, M 1 0⟩

/-! ## The quaternion conversion -/

/-- Modelled from the spec: the rotation-matrix-to-quaternion conversion of
step 4 of the transform pipeline.  The callback obtains it from the constructor
Eigen::Quaternionf(temp) at line 164, and the Eigen library is not part of the
sources.  The model is the routine that constructor runs, Shoemake's method:
when the trace is positive, w comes from the square root of trace + 1;
otherwise the largest diagonal entry (i) selects which of x, y, z comes from
the square root of mat(i,i) - mat(j,j) - mat(k,k) + 1, with j = (i+1) mod 3 and
k = (j+1) mod 3.  There is no separate normalisation step.  The square root is
the parameter sqrt, the constant 0.5 is written 1 / 2, and c holds the
coefficients x, y, z at indices 0, 1, 2. -/
def quaternionFromMatrix {α : Type} [LinearOrderedField α] (sqrt : α → α)
    (mat : Matrix3x3 α) : Quaternionf α :=
  let t := mat 0 0 + mat 1 1 + mat 2 2
  if t > 0 then
    let t1 := sqrt (t + 1)
    let t2 := 1 / 2 / t1
    ⟨1 / 2 * t1, (mat 2 1 - mat 1 2) * t2, (mat 0 2 - mat 2 0) * t2,
      (mat 1 0 - mat 0 1) * t2⟩
  else
    let i0 : Fin 3 := if mat 1 1 > mat 0 0 then 1 else 0
    let i : Fin 3 := if mat 2 2 > mat i0 i0 then 2 else i0
    let j : Fin 3 := i + 1
    let k : Fin 3 := j + 1
    let t1 := sqrt (mat i i - mat j j - mat k k + 1)
    let t2 := 1 / 2 / t1
    let c : Fin 3 → α :=
      Function.update
        (Function.update (Function.update (fun _ => 0) i (1 / 2 * t1))
          j ((mat j i + mat i j) * t2))
        k ((mat k i + mat i k) * t2)
    ⟨(mat k j - mat j k) * t2, c 0, c 1, c 2⟩

/-- The squared norm w^2 + x^2 + y^2 + z^2 of a quaternion. -/
def Quaternionf.squaredNorm {α : Type} [Add α] [Mul α] (q : Quaternionf α) : α :=
  q.w * q.w + q.x * q.x + q.y * q.y + q.z * q.z

/-- An environment over any scalar type: every message m decodes to image m
with stamp m, the engine always returns the given pose, the clock stands at 0
and the quaternion conversion is the given one. -/
def constantPoseEnv {α : Type} [NatCast α] (conv : Matrix3x3 α → Quaternionf α)
    (pose : Mat4 α) : Env α Nat Nat Nat Nat where
  toCvShare := fun m => .ok ⟨m, m⟩
  toSec := fun t => (t : α)
  TrackRGBD := fun n _ _ _ => (some pose, n + 1)
  now := fun _ => 0
  Quaternionf := conv

/-! ## Theorems -/

section Theorems

variable {α τ Msg Img σ : Type}

/-- The result of GrabRGBD when the color message does not decode. -/
theorem GrabRGBD_of_rgb_error [Zero α] [One α] [Neg α] (env : Env α τ Msg Img σ)
    (msgRGB msgD : Msg) (s : State σ) (e : String)
    (hRGB : env.toCvShare msgRGB = .error e) :
    GrabRGBD env msgRGB msgD s = ([.ROS_ERROR ("cv_bridge exception: " ++ e)], s) := by
  simp [GrabRGBD, hRGB]

/-- The result of GrabRGBD when the color message decodes and the depth message
does not. -/
theorem GrabRGBD_of_depth_error [Zero α] [One α] [Neg α] (env : Env α τ Msg Img σ)
    (msgRGB msgD : Msg) (s : State σ) (cv_ptrRGB : CvImage τ Img) (e : String)
    (hRGB : env.toCvShare msgRGB = .ok cv_ptrRGB)
    (hD : env.toCvShare msgD = .error e) :
    GrabRGBD env msgRGB msgD s = ([.ROS_ERROR ("cv_bridge exception: " ++ e)], s) := by
  simp [GrabRGBD, hRGB, hD]

/-- The result of GrabRGBD when both messages decode and the engine returns the
empty matrix. -/
theorem GrabRGBD_of_empty [Zero α] [One α] [Neg α] (env : Env α τ Msg Img σ)
    (msgRGB msgD : Msg) (s : State σ) (cv_ptrRGB cv_ptrD : CvImage τ Img)
    (hRGB : env.toCvShare msgRGB = .ok cv_ptrRGB)
    (hD : env.toCvShare msgD = .ok cv_ptrD)
    (hpose : (env.TrackRGBD s.mpSLAM cv_ptrRGB.image cv_ptrD.image
      (env.toSec cv_ptrRGB.stamp)).1 = none) :
    GrabRGBD env msgRGB msgD s =
      ([.TrackRGBD cv_ptrRGB.image cv_ptrD.image (env.toSec cv_ptrRGB.stamp)],
       ⟨(env.TrackRGBD s.mpSLAM cv_ptrRGB.image cv_ptrD.image
          (env.toSec cv_ptrRGB.stamp)).2, s.reads⟩) := by
  simp [GrabRGBD, hRGB, hD, hpose]

/-- The result of GrabRGBD when both messages decode and the engine returns a
non-empty pose. -/
theorem GrabRGBD_of_pose [Zero α] [One α] [Neg α] (env : Env α τ Msg Img σ)
    (msgRGB msgD : Msg) (s : State σ) (cv_ptrRGB cv_ptrD : CvImage τ Img) (pose : Mat4 α)
    (hRGB : env.toCvShare msgRGB = .ok cv_ptrRGB)
    (hD : env.toCvShare msgD = .ok cv_ptrD)
    (hpose : (env.TrackRGBD s.mpSLAM cv_ptrRGB.image cv_ptrD.image
      (env.toSec cv_ptrRGB.stamp)).1 = some pose) :
    GrabRGBD env msgRGB msgD s =
      ([.TrackRGBD cv_ptrRGB.image cv_ptrD.image (env.toSec cv_ptrRGB.stamp),
        .sendTransform ⟨transformCoordSystem, env.now s.reads, "body", "camera_pose"⟩,
        .sendTransform ⟨transformCamera pose, env.now (s.reads + 1), "camera_pose", "pose"⟩,
        .sendTransform ⟨transformWorldSystem, env.now (s.reads + 2), "pose", "world"⟩,
        .publish ⟨env.now (s.reads + 3), "world", rh_cameraTranslation pose,
          env.Quaternionf (temp pose)⟩],
       ⟨(env.TrackRGBD s.mpSLAM cv_ptrRGB.image cv_ptrD.image
          (env.toSec cv_ptrRGB.stamp)).2, s.reads + 4⟩) := by
  have ht : ![rh_cameraTranslation pose 0, rh_cameraTranslation pose 1,
      rh_cameraTranslation pose 2] = rh_cameraTranslation pose := by
    funext i; fin_cases i <;> rfl
  simp [GrabRGBD, hRGB, hD, hpose, ht]

/-- C1: for every non-empty pose returned by the engine, the only link with
parent camera_pose and child pose that GrabRGBD broadcasts has the rotation
[[-R00, R01, R02], [-R10, R11, R12], [R20, -R21, -R22]] and the translation
(pose(0,3), pose(1,3), pose(2,3)). -/
theorem camera_link_rotation_translation [Zero α] [One α] [Neg α]
    (env : Env α τ Msg Img σ) (msgRGB msgD : Msg) (s : State σ)
    (cv_ptrRGB cv_ptrD : CvImage τ Img) (pose : Mat4 α)
    (hRGB : env.toCvShare msgRGB = .ok cv_ptrRGB)
    (hD : env.toCvShare msgD = .ok cv_ptrD)
    (hpose : (env.TrackRGBD s.mpSLAM cv_ptrRGB.image cv_ptrD.image
      (env.toSec cv_ptrRGB.stamp)).1 = some pose) :
    (linksBetween "camera_pose" "pose" (GrabRGBD env msgRGB msgD s).1).map
        (fun l => (l.transform.basis, l.transform.origin)) =
      [(!![-pose 0 0, pose 0 1, pose 0 2;
           -pose 1 0, pose 1 1, pose 1 2;
           pose 2 0, -pose 2 1, -pose 2 2],
        ![pose 0 3, pose 1 3, pose 2 3])] := by
  rw [GrabRGBD_of_pose env msgRGB msgD s cv_ptrRGB cv_ptrD pose hRGB hD hpose]
  simp [linksBetween, links, transformCamera, rh_cameraPose, rh_cameraTranslation]

/-- C1 at a concrete input: the engine returns the pose with rotation block
[[1,2,3],[4,5,6],[7,8,9]] and translation column (10,11,12). -/
theorem camera_link_rotation_translation_witness :
    (linksBetween "camera_pose" "pose"
      (GrabRGBD (sampleEnv !![1, 2, 3; 4, 5, 6; 7, 8, 9] ![10, 11, 12] id) 1 2 ⟨0, 0⟩).1).map
        (fun l => (l.transform.basis, l.transform.origin)) =
      [(!![-1, 2, 3; -4, 5, 6; 7, -8, -9], ![10, 11, 12])] := by
  have h := camera_link_rotation_translation
    (sampleEnv !![1, 2, 3; 4, 5, 6; 7, 8, 9] ![10, 11, 12] id) 1 2 ⟨0, 0⟩ ⟨1, 1⟩ ⟨2, 2⟩
    (poseOf !![1, 2, 3; 4, 5, 6; 7, 8, 9] ![10, 11, 12]) rfl rfl rfl
  simpa [poseOf] using h

/-- C2 fails on the code: when the engine returns the pose with R = identity and
t = (1, 2, 3), the one odometry record published has position (1, 2, 3), which
is not (1, 2, -3). -/
theorem odometry_position_not_negated :
    ((sampleEnv 1 ![1, 2, 3] id).TrackRGBD 0 5 6 5).1 = some (poseOf 1 ![1, 2, 3]) ∧
    (odometry (GrabRGBD (sampleEnv 1 ![1, 2, 3] id) 5 6 ⟨0, 0⟩).1).map
        (fun o => o.position) = [![1, 2, 3]] ∧
    (odometry (GrabRGBD (sampleEnv 1 ![1, 2, 3] id) 5 6 ⟨0, 0⟩).1).map
        (fun o => o.position) ≠ [![1, 2, -3]] := by
  have h := GrabRGBD_of_pose (sampleEnv 1 ![1, 2, 3] id) 5 6 ⟨0, 0⟩ ⟨5, 5⟩ ⟨6, 6⟩
    (poseOf 1 ![1, 2, 3]) rfl rfl rfl
  have hp : (odometry (GrabRGBD (sampleEnv 1 ![1, 2, 3] id) 5 6 ⟨0, 0⟩).1).map
      (fun o => o.position) = [![1, 2, 3]] := by
    rw [h]
    simp [odometry, rh_cameraTranslation, poseOf]
  refine ⟨rfl, hp, ?_⟩
  rw [hp]
  intro hne
  have h2 := congrFun (List.cons.inj hne).1 2
  simp at h2

/-- C2 as amended: when the engine returns the pose with R = identity and
t = (1, 2, 3), GrabRGBD publishes exactly one odometry record and its position
is (1, 2, 3), the translation column unchanged. -/
theorem odometry_position_identity_123 [Ring α]
    (env : Env α τ Msg Img σ) (msgRGB msgD : Msg) (s : State σ)
    (cv_ptrRGB cv_ptrD : CvImage τ Img)
    (hRGB : env.toCvShare msgRGB = .ok cv_ptrRGB)
    (hD : env.toCvShare msgD = .ok cv_ptrD)
    (hpose : (env.TrackRGBD s.mpSLAM cv_ptrRGB.image cv_ptrD.image
      (env.toSec cv_ptrRGB.stamp)).1 = some (poseOf 1 ![1, 2, 3])) :
    (odometry (GrabRGBD env msgRGB msgD s).1).map (fun o => o.position) = [![1, 2, 3]] := by
  rw [GrabRGBD_of_pose env msgRGB msgD s cv_ptrRGB cv_ptrD _ hRGB hD hpose]
  simp [odometry, rh_cameraTranslation, poseOf]

/-- C2 as amended, at a concrete input over the integers. -/
theorem odometry_position_identity_123_witness :
    (odometry (GrabRGBD (sampleEnv 1 ![1, 2, 3] (fun k => 7 * k)) 5 6 ⟨3, 2⟩).1).map
        (fun o => o.position) = [![1, 2, 3]] :=
  odometry_position_identity_123 (sampleEnv 1 ![1, 2, 3] (fun k => 7 * k)) 5 6 ⟨3, 2⟩
    ⟨5, 5⟩ ⟨6, 6⟩ rfl rfl rfl

/-- C3: when both frames decode and the engine returns the empty matrix, the
only event of the call is the engine call itself: no link is broadcast, no
odometry record is published and no error is reported. -/
theorem no_pose_publishes_nothing [Zero α] [One α] [Neg α]
    (env : Env α τ Msg Img σ) (msgRGB msgD : Msg) (s : State σ)
    (cv_ptrRGB cv_ptrD : CvImage τ Img)
    (hRGB : env.toCvShare msgRGB = .ok cv_ptrRGB)
    (hD : env.toCvShare msgD = .ok cv_ptrD)
    (hpose : (env.TrackRGBD s.mpSLAM cv_ptrRGB.image cv_ptrD.image
      (env.toSec cv_ptrRGB.stamp)).1 = none) :
    (GrabRGBD env msgRGB msgD s).1 =
        [.TrackRGBD cv_ptrRGB.image cv_ptrD.image (env.toSec cv_ptrRGB.stamp)] ∧
    (links (GrabRGBD env msgRGB msgD s).1).length = 0 ∧
    (odometry (GrabRGBD env msgRGB msgD s).1).length = 0 ∧
    (errors (GrabRGBD env msgRGB msgD s).1).length = 0 := by
  rw [GrabRGBD_of_empty env msgRGB msgD s cv_ptrRGB cv_ptrD hRGB hD hpose]
  simp [links, odometry, errors]

/-- C3 at a concrete input: depth image 1 makes the sample engine return the
empty matrix. -/
theorem no_pose_publishes_nothing_witness :
    (GrabRGBD (sampleEnv 1 ![1, 2, 3] id) 4 1 ⟨0, 0⟩).1 = [.TrackRGBD 4 1 4] ∧
    (links (GrabRGBD (sampleEnv 1 ![1, 2, 3] id) 4 1 ⟨0, 0⟩).1).length = 0 ∧
    (odometry (GrabRGBD (sampleEnv 1 ![1, 2, 3] id) 4 1 ⟨0, 0⟩).1).length = 0 ∧
    (errors (GrabRGBD (sampleEnv 1 ![1, 2, 3] id) 4 1 ⟨0, 0⟩).1).length = 0 :=
  no_pose_publishes_nothing (sampleEnv 1 ![1, 2, 3] id) 4 1 ⟨0, 0⟩ ⟨4, 4⟩ ⟨1, 1⟩ rfl rfl rfl

/-- C4: when the color frame or the depth frame does not decode, GrabRGBD
reports one error, never calls TrackRGBD, broadcasts no link, publishes no
odometry record and leaves the engine state as it was; when both frames decode,
TrackRGBD is called exactly once. -/
theorem decode_failure_skips_engine [Zero α] [One α] [Neg α]
    (env : Env α τ Msg Img σ) (msgRGB msgD : Msg) (s : State σ) :
    (((∃ e, env.toCvShare msgRGB = .error e) ∨ (∃ e, env.toCvShare msgD = .error e)) →
      (errors (GrabRGBD env msgRGB msgD s).1).length = 1 ∧
      (engineCalls (GrabRGBD env msgRGB msgD s).1).length = 0 ∧
      (links (GrabRGBD env msgRGB msgD s).1).length = 0 ∧
      (odometry (GrabRGBD env msgRGB msgD s).1).length = 0 ∧
      (GrabRGBD env msgRGB msgD s).2 = s) ∧
    (((∃ a, env.toCvShare msgRGB = .ok a) ∧ (∃ b, env.toCvShare msgD = .ok b)) →
      (engineCalls (GrabRGBD env msgRGB msgD s).1).length = 1) := by
  constructor
  · intro h
    cases hRGB : env.toCvShare msgRGB with
    | error e =>
      rw [GrabRGBD_of_rgb_error env msgRGB msgD s e hRGB]
      simp [errors, engineCalls, links, odometry]
    | ok a =>
      rcases h with ⟨e, he⟩ | ⟨e, he⟩
      · rw [hRGB] at he
        cases he
      · rw [GrabRGBD_of_depth_error env msgRGB msgD s a e hRGB he]
        simp [errors, engineCalls, links, odometry]
  · rintro ⟨⟨a, ha⟩, b, hb⟩
    cases hp : (env.TrackRGBD s.mpSLAM a.image b.image (env.toSec a.stamp)).1 with
    | none =>
      rw [GrabRGBD_of_empty env msgRGB msgD s a b ha hb hp]
      simp [engineCalls]
    | some pose =>
      rw [GrabRGBD_of_pose env msgRGB msgD s a b pose ha hb hp]
      simp [engineCalls]

/-- C4 at concrete inputs: message 0 does not decode in the sample environment;
with color 0, with depth 0 and with both frames good. -/
theorem decode_failure_skips_engine_witness :
    ((errors (GrabRGBD (sampleEnv 1 ![1, 2, 3] id) 0 5 ⟨0, 0⟩).1).length = 1 ∧
      (engineCalls (GrabRGBD (sampleEnv 1 ![1, 2, 3] id) 0 5 ⟨0, 0⟩).1).length = 0 ∧
      (links (GrabRGBD (sampleEnv 1 ![1, 2, 3] id) 0 5 ⟨0, 0⟩).1).length = 0 ∧
      (odometry (GrabRGBD (sampleEnv 1 ![1, 2, 3] id) 0 5 ⟨0, 0⟩).1).length = 0 ∧
      (GrabRGBD (sampleEnv 1 ![1, 2, 3] id) 0 5 ⟨0, 0⟩).2 = ⟨0, 0⟩) ∧
    ((errors (GrabRGBD (sampleEnv 1 ![1, 2, 3] id) 5 0 ⟨0, 0⟩).1).length = 1 ∧
      (engineCalls (GrabRGBD (sampleEnv 1 ![1, 2, 3] id) 5 0 ⟨0, 0⟩).1).length = 0 ∧
      (links (GrabRGBD (sampleEnv 1 ![1, 2, 3] id) 5 0 ⟨0, 0⟩).1).length = 0 ∧
      (odometry (GrabRGBD (sampleEnv 1 ![1, 2, 3] id) 5 0 ⟨0, 0⟩).1).length = 0 ∧
      (GrabRGBD (sampleEnv 1 ![1, 2, 3] id) 5 0 ⟨0, 0⟩).2 = ⟨0, 0⟩) ∧
    (engineCalls (GrabRGBD (sampleEnv 1 ![1, 2, 3] id) 5 6 ⟨0, 0⟩).1).length = 1 :=
  ⟨(decode_failure_skips_engine (sampleEnv 1 ![1, 2, 3] id) 0 5 ⟨0, 0⟩).1
      (Or.inl ⟨"bad encoding", rfl⟩),
   (decode_failure_skips_engine (sampleEnv 1 ![1, 2, 3] id) 5 0 ⟨0, 0⟩).1
      (Or.inr ⟨"bad encoding", rfl⟩),
   (decode_failure_skips_engine (sampleEnv 1 ![1, 2, 3] id) 5 6 ⟨0, 0⟩).2
      ⟨⟨⟨5, 5⟩, rfl⟩, ⟨6, 6⟩, rfl⟩⟩

/-- C5: for every non-empty pose the events of the call are the engine call
followed by exactly four outputs, in this order: the link body -> camera_pose,
the link camera_pose -> pose, the link pose -> world, and one odometry record
with frame_id world. -/
theorem outputs_order [Zero α] [One α] [Neg α]
    (env : Env α τ Msg Img σ) (msgRGB msgD : Msg) (s : State σ)
    (cv_ptrRGB cv_ptrD : CvImage τ Img) (pose : Mat4 α)
    (hRGB : env.toCvShare msgRGB = .ok cv_ptrRGB)
    (hD : env.toCvShare msgD = .ok cv_ptrD)
    (hpose : (env.TrackRGBD s.mpSLAM cv_ptrRGB.image cv_ptrD.image
      (env.toSec cv_ptrRGB.stamp)).1 = some pose) :
    outputs (GrabRGBD env msgRGB msgD s).1 =
      [.sendTransform ⟨transformCoordSystem, env.now s.reads, "body", "camera_pose"⟩,
       .sendTransform ⟨transformCamera pose, env.now (s.reads + 1), "camera_pose", "pose"⟩,
       .sendTransform ⟨transformWorldSystem, env.now (s.reads + 2), "pose", "world"⟩,
       .publish ⟨env.now (s.reads + 3), "world", rh_cameraTranslation pose,
         env.Quaternionf (temp pose)⟩] ∧
    (GrabRGBD env msgRGB msgD s).1 =
      .TrackRGBD cv_ptrRGB.image cv_ptrD.image (env.toSec cv_ptrRGB.stamp) ::
        outputs (GrabRGBD env msgRGB msgD s).1 := by
  rw [GrabRGBD_of_pose env msgRGB msgD s cv_ptrRGB cv_ptrD pose hRGB hD hpose]
  simp [outputs]

/-- C5 at a concrete input: the four outputs, reduced to their kind and frame
names. -/
theorem outputs_order_witness :
    (outputs (GrabRGBD (sampleEnv 1 ![1, 2, 3] id) 5 6 ⟨0, 0⟩).1).map
        (fun e => match e with
          | .sendTransform t => ("link", t.frame_id_, t.child_frame_id_)
          | .publish o => ("odometry", o.frame_id, "")
          | _ => ("", "", "")) =
      [("link", "body", "camera_pose"), ("link", "camera_pose", "pose"),
       ("link", "pose", "world"), ("odometry", "world", "")] := by
  rw [(outputs_order (sampleEnv 1 ![1, 2, 3] id) 5 6 ⟨0, 0⟩ ⟨5, 5⟩ ⟨6, 6⟩
    (poseOf 1 ![1, 2, 3]) rfl rfl rfl).1]
  rfl

/-- C6 fails on the code: with a clock whose k-th read returns k, the four
outputs of one call carry the stamps 0, 1, 2, 3, which are not all the same. -/
theorem stamps_differ_under_ticking_clock :
    ((sampleEnv 1 ![1, 2, 3] id).TrackRGBD 0 5 6 5).1 = some (poseOf 1 ![1, 2, 3]) ∧
    stamps (GrabRGBD (sampleEnv 1 ![1, 2, 3] id) 5 6 ⟨0, 0⟩).1 = [0, 1, 2, 3] ∧
    ¬ ∃ t, ∀ x ∈ stamps (GrabRGBD (sampleEnv 1 ![1, 2, 3] id) 5 6 ⟨0, 0⟩).1, x = t := by
  have h := GrabRGBD_of_pose (sampleEnv 1 ![1, 2, 3] id) 5 6 ⟨0, 0⟩ ⟨5, 5⟩ ⟨6, 6⟩
    (poseOf 1 ![1, 2, 3]) rfl rfl rfl
  have hs : stamps (GrabRGBD (sampleEnv 1 ![1, 2, 3] id) 5 6 ⟨0, 0⟩).1 = [0, 1, 2, 3] := by
    rw [h]
    simp [stamps, sampleEnv]
  refine ⟨rfl, hs, ?_⟩
  rw [hs]
  rintro ⟨t, ht⟩
  have h0 := ht 0 (by simp)
  have h1 := ht 1 (by simp)
  omega

/-- C6 as amended: for every non-empty pose and every clock, the three links and
the odometry record carry, in emission order, the four successive readings of
the clock made during the call; they all carry the same timestamp whenever the
clock returns the same reading on those four reads. -/
theorem stamps_are_successive_clock_reads [Zero α] [One α] [Neg α]
    (env : Env α τ Msg Img σ) (msgRGB msgD : Msg) (s : State σ)
    (cv_ptrRGB cv_ptrD : CvImage τ Img) (pose : Mat4 α)
    (hRGB : env.toCvShare msgRGB = .ok cv_ptrRGB)
    (hD : env.toCvShare msgD = .ok cv_ptrD)
    (hpose : (env.TrackRGBD s.mpSLAM cv_ptrRGB.image cv_ptrD.image
      (env.toSec cv_ptrRGB.stamp)).1 = some pose) :
    stamps (GrabRGBD env msgRGB msgD s).1 =
      [env.now s.reads, env.now (s.reads + 1), env.now (s.reads + 2), env.now (s.reads + 3)] ∧
    (GrabRGBD env msgRGB msgD s).2.reads = s.reads + 4 ∧
    ∀ t, (∀ k, k < 4 → env.now (s.reads + k) = t) →
      ∀ x ∈ stamps (GrabRGBD env msgRGB msgD s).1, x = t := by
  rw [GrabRGBD_of_pose env msgRGB msgD s cv_ptrRGB cv_ptrD pose hRGB hD hpose]
  refine ⟨by simp [stamps], rfl, ?_⟩
  intro t ht x hx
  have h0 := ht 0 (by decide)
  have h1 := ht 1 (by decide)
  have h2 := ht 2 (by decide)
  have h3 := ht 3 (by decide)
  simp only [Nat.add_zero] at h0
  simp [stamps, h0, h1, h2, h3] at hx
  exact hx

/-- C6 as amended, at a concrete input: a clock that stands at 9 gives the four
outputs the stamp 9. -/
theorem stamps_are_successive_clock_reads_witness :
    stamps (GrabRGBD (sampleEnv 1 ![1, 2, 3] (fun _ => 9)) 5 6 ⟨0, 0⟩).1 = [9, 9, 9, 9] ∧
    ∀ x ∈ stamps (GrabRGBD (sampleEnv 1 ![1, 2, 3] (fun _ => 9)) 5 6 ⟨0, 0⟩).1, x = 9 :=
  ⟨(stamps_are_successive_clock_reads (sampleEnv 1 ![1, 2, 3] (fun _ => 9)) 5 6 ⟨0, 0⟩
      ⟨5, 5⟩ ⟨6, 6⟩ (poseOf 1 ![1, 2, 3]) rfl rfl rfl).1,
   (stamps_are_successive_clock_reads (sampleEnv 1 ![1, 2, 3] (fun _ => 9)) 5 6 ⟨0, 0⟩
      ⟨5, 5⟩ ⟨6, 6⟩ (poseOf 1 ![1, 2, 3]) rfl rfl rfl).2.2 9 (fun _ _ => rfl)⟩

/-- The cosine and sine of 270 degrees. -/
theorem cos_sin_270 :
    Real.cos (270 * Real.pi / 180) = 0 ∧ Real.sin (270 * Real.pi / 180) = -1 := by
  have h : 270 * Real.pi / 180 = Real.pi / 2 + Real.pi := by ring
  rw [h, Real.cos_add_pi, Real.sin_add_pi, Real.cos_pi_div_two, Real.sin_pi_div_two]
  simp

/-- The matrix rotation270degZX is the product of the elementary rotations
about z and about x for cosine 0 and sine -1. -/
theorem rotation270degZX_eq_rotZ_mul_rotX [Ring α] :
    (rotation270degZX : Matrix3x3 α) = rotZ 0 (-1) * rotX 0 (-1) := by
  ext i j
  fin_cases i <;> fin_cases j <;>
    simp [rotation270degZX, rotZ, rotX, Matrix.mul_apply, Fin.sum_univ_three,
      Matrix.vecHead, Matrix.vecTail]

/-- C7: for every non-empty pose the only link with parent body and child
camera_pose has translation zero and the rotation [[0,0,1],[-1,0,0],[0,-1,0]],
whatever the pose; that matrix is Rz * Rx for the elementary rotations with
cosine 0 and sine -1, which over the reals are the cosine and the sine of 270
degrees. -/
theorem body_link_is_rotZ270_mul_rotX270 [Ring α]
    (env : Env α τ Msg Img σ) (msgRGB msgD : Msg) (s : State σ)
    (cv_ptrRGB cv_ptrD : CvImage τ Img) (pose : Mat4 α)
    (hRGB : env.toCvShare msgRGB = .ok cv_ptrRGB)
    (hD : env.toCvShare msgD = .ok cv_ptrD)
    (hpose : (env.TrackRGBD s.mpSLAM cv_ptrRGB.image cv_ptrD.image
      (env.toSec cv_ptrRGB.stamp)).1 = some pose) :
    (linksBetween "body" "camera_pose" (GrabRGBD env msgRGB msgD s).1).map
        (fun l => (l.transform.basis, l.transform.origin)) =
      [(!![0, 0, 1; -1, 0, 0; 0, -1, 0], ![0, 0, 0])] ∧
    (!![0, 0, 1; -1, 0, 0; 0, -1, 0] : Matrix3x3 α) = rotZ 0 (-1) * rotX 0 (-1) ∧
    (!![0, 0, 1; -1, 0, 0; 0, -1, 0] : Matrix3x3 ℝ) =
      rotZ (Real.cos (270 * Real.pi / 180)) (Real.sin (270 * Real.pi / 180)) *
        rotX (Real.cos (270 * Real.pi / 180)) (Real.sin (270 * Real.pi / 180)) := by
  refine ⟨?_, ?_, ?_⟩
  · rw [GrabRGBD_of_pose env msgRGB msgD s cv_ptrRGB cv_ptrD pose hRGB hD hpose]
    simp [linksBetween, links, transformCoordSystem, rotation270degZX]
  · exact rotation270degZX_eq_rotZ_mul_rotX
  · rw [cos_sin_270.1, cos_sin_270.2]
    exact rotation270degZX_eq_rotZ_mul_rotX

/-- C7 at a concrete input over the integers. -/
theorem body_link_is_rotZ270_mul_rotX270_witness :
    (linksBetween "body" "camera_pose"
      (GrabRGBD (sampleEnv !![1, 2, 3; 4, 5, 6; 7, 8, 9] ![10, 11, 12] id) 5 6 ⟨0, 0⟩).1).map
        (fun l => (l.transform.basis, l.transform.origin)) =
      [(!![0, 0, 1; -1, 0, 0; 0, -1, 0], ![0, 0, 0])] :=
  (body_link_is_rotZ270_mul_rotX270
    (sampleEnv !![1, 2, 3; 4, 5, 6; 7, 8, 9] ![10, 11, 12] id) 5 6 ⟨0, 0⟩ ⟨5, 5⟩ ⟨6, 6⟩
    (poseOf !![1, 2, 3; 4, 5, 6; 7, 8, 9] ![10, 11, 12]) rfl rfl rfl).1

/-- C9: the step-1 sign pattern is undone by itself.  For every 3x3 matrix R
and every translation t, the matrices rh_cameraPose and temp built from the
pose with rotation block R are the sign pattern of R, and applying the sign
pattern to them gives back R entry for entry; the same holds for the rotation
block of any 4x4 pose, and the sign pattern is an involution. -/
theorem signPattern_round_trip [Zero α] [One α] [InvolutiveNeg α]
    (R : Matrix3x3 α) (t : Vector3 α) (pose : Mat4 α) :
    rh_cameraPose (poseOf R t) = signPattern R ∧
    temp (poseOf R t) = signPattern R ∧
    signPattern (rh_cameraPose (poseOf R t)) = R ∧
    signPattern (temp (poseOf R t)) = R ∧
    signPattern (rh_cameraPose pose) = rotationBlock pose ∧
    signPattern (temp pose) = rotationBlock pose ∧
    signPattern (signPattern R) = R := by
  refine ⟨?_, ?_, ?_, ?_, ?_, ?_, ?_⟩ <;>
    (ext i j
     fin_cases i <;> fin_cases j <;>
       simp [signPattern, rh_cameraPose, temp, poseOf, rotationBlock])

/-- The matrix rh_cameraPose is diag(1,1,-1) * R * diag(-1,1,1) for the
rotation block R of the pose. -/
theorem rh_cameraPose_eq_diag_mul [CommRing α] (pose : Mat4 α) :
    rh_cameraPose pose =
      Matrix.diagonal ![1, 1, -1] * rotationBlock pose * Matrix.diagonal ![-1, 1, 1] := by
  ext i j
  fin_cases i <;> fin_cases j <;>
    simp [rh_cameraPose, rotationBlock, Matrix.mul_apply, Fin.sum_univ_three,
      Matrix.diagonal_apply, Matrix.vecHead, Matrix.vecTail]

/-- A diagonal 3x3 matrix whose entries square to 1 is its own inverse. -/
theorem diagonal_mul_self_of_sq [CommRing α] (d : Fin 3 → α) (h : ∀ i, d i * d i = 1) :
    Matrix.diagonal d * Matrix.diagonal d = 1 := by
  have hd : (fun i => d i * d i) = fun _ => (1 : α) := funext h
  rw [Matrix.diagonal_mul_diagonal, ← Matrix.diagonal_one, hd]

/-- When the rotation block of the pose is orthogonal, so is rh_cameraPose. -/
theorem rh_cameraPose_mul_transpose [CommRing α] (pose : Mat4 α)
    (horth : rotationBlock pose * (rotationBlock pose).transpose = 1) :
    rh_cameraPose pose * (rh_cameraPose pose).transpose = 1 := by
  have h1 : Matrix.diagonal ![(1 : α), 1, -1] * Matrix.diagonal ![(1 : α), 1, -1] = 1 :=
    diagonal_mul_self_of_sq _ (by intro i; fin_cases i <;> simp)
  have h2 : Matrix.diagonal ![(-1 : α), 1, 1] * Matrix.diagonal ![(-1 : α), 1, 1] = 1 :=
    diagonal_mul_self_of_sq _ (by intro i; fin_cases i <;> simp)
  rw [rh_cameraPose_eq_diag_mul, Matrix.transpose_mul, Matrix.transpose_mul,
    Matrix.diagonal_transpose, Matrix.diagonal_transpose]
  calc Matrix.diagonal ![(1 : α), 1, -1] * rotationBlock pose * Matrix.diagonal ![-1, 1, 1] *
        (Matrix.diagonal ![-1, 1, 1] *
          ((rotationBlock pose).transpose * Matrix.diagonal ![1, 1, -1]))
      = Matrix.diagonal ![(1 : α), 1, -1] *
          (rotationBlock pose *
            (Matrix.diagonal ![(-1 : α), 1, 1] * Matrix.diagonal ![(-1 : α), 1, 1]) *
            (rotationBlock pose).transpose) * Matrix.diagonal ![1, 1, -1] := by
        simp only [Matrix.mul_assoc]
    _ = 1 := by rw [h2, Matrix.mul_one, horth, Matrix.mul_one, h1]

/-- The determinant of rh_cameraPose is the determinant of the rotation block
of the pose. -/
theorem rh_cameraPose_det [CommRing α] (pose : Mat4 α) :
    (rh_cameraPose pose).det = (rotationBlock pose).det := by
  rw [rh_cameraPose_eq_diag_mul, Matrix.det_mul, Matrix.det_mul,
    Matrix.det_diagonal, Matrix.det_diagonal]
  simp [Fin.prod_univ_three]

/-- C10: when the rotation block R of the pose is orthogonal with determinant 1,
the matrix rh_cameraPose placed in the camera_pose -> pose link and the matrix
temp fed to the quaternion conversion are the same matrix
diag(1,1,-1) * R * diag(-1,1,1), and it is orthogonal with determinant 1. -/
theorem sign_flip_preserves_rotation [CommRing α] (pose : Mat4 α) (R : Matrix3x3 α)
    (hR : rotationBlock pose = R)
    (horth : R * R.transpose = 1) (hdet : R.det = 1) :
    temp pose = rh_cameraPose pose ∧
    rh_cameraPose pose = Matrix.diagonal ![1, 1, -1] * R * Matrix.diagonal ![-1, 1, 1] ∧
    rh_cameraPose pose * (rh_cameraPose pose).transpose = 1 ∧
    (rh_cameraPose pose).transpose * rh_cameraPose pose = 1 ∧
    (rh_cameraPose pose).det = 1 := by
  subst hR
  have hmul := rh_cameraPose_mul_transpose pose horth
  refine ⟨rfl, rh_cameraPose_eq_diag_mul pose, hmul, ?_, ?_⟩
  · exact (Matrix.mul_eq_one_comm).1 hmul
  · rw [rh_cameraPose_det, hdet]

/-- C10 at a concrete input: the rotation by a quarter turn about z. -/
theorem sign_flip_preserves_rotation_witness :
    (!![0, -1, 0; 1, 0, 0; 0, 0, 1] : Matrix3x3 ℤ) *
        (!![0, -1, 0; 1, 0, 0; 0, 0, 1] : Matrix3x3 ℤ).transpose = 1 ∧
    (!![0, -1, 0; 1, 0, 0; 0, 0, 1] : Matrix3x3 ℤ).det = 1 ∧
    rh_cameraPose (poseOf (!![0, -1, 0; 1, 0, 0; 0, 0, 1] : Matrix3x3 ℤ) ![1, 2, 3]) *
      (rh_cameraPose (poseOf (!![0, -1, 0; 1, 0, 0; 0, 0, 1] : Matrix3x3 ℤ)
        ![1, 2, 3])).transpose = 1 ∧
    (rh_cameraPose (poseOf (!![0, -1, 0; 1, 0, 0; 0, 0, 1] : Matrix3x3 ℤ) ![1, 2, 3])).det = 1 := by
  have ho : (!![0, -1, 0; 1, 0, 0; 0, 0, 1] : Matrix3x3 ℤ) *
      (!![0, -1, 0; 1, 0, 0; 0, 0, 1] : Matrix3x3 ℤ).transpose = 1 := by
    ext i j
    fin_cases i <;> fin_cases j <;>
      simp [Matrix.mul_apply, Fin.sum_univ_three, Matrix.vecHead, Matrix.vecTail]
  have hd : (!![0, -1, 0; 1, 0, 0; 0, 0, 1] : Matrix3x3 ℤ).det = 1 := by
    simp [Matrix.det_fin_three]
  have hb : rotationBlock (poseOf (!![0, -1, 0; 1, 0, 0; 0, 0, 1] : Matrix3x3 ℤ) ![1, 2, 3]) =
      !![0, -1, 0; 1, 0, 0; 0, 0, 1] := by
    ext i j
    fin_cases i <;> fin_cases j <;> rfl
  have h := sign_flip_preserves_rotation
    (poseOf (!![0, -1, 0; 1, 0, 0; 0, 0, 1] : Matrix3x3 ℤ) ![1, 2, 3]) _ hb ho hd
  exact ⟨ho, hd, h.2.2.1, h.2.2.2.2⟩

/-- The rotation block of the pose built from R and t is R. -/
theorem rotationBlock_poseOf [Zero α] [One α] (R : Matrix3x3 α) (t : Vector3 α) :
    rotationBlock (poseOf R t) = R := by
  ext i j
  fin_cases i <;> fin_cases j <;> rfl

/-- The rows of an orthogonal 3x3 matrix have squared length 1. -/
theorem row_norms_of_orthogonal [CommRing α] (m : Matrix3x3 α)
    (horth : m * m.transpose = 1) :
    m 0 0 * m 0 0 + m 0 1 * m 0 1 + m 0 2 * m 0 2 = 1 ∧
    m 1 0 * m 1 0 + m 1 1 * m 1 1 + m 1 2 * m 1 2 = 1 ∧
    m 2 0 * m 2 0 + m 2 1 * m 2 1 + m 2 2 * m 2 2 = 1 := by
  have h0 := congrFun (congrFun horth 0) 0
  have h1 := congrFun (congrFun horth 1) 1
  have h2 := congrFun (congrFun horth 2) 2
  simp [Matrix.mul_apply, Fin.sum_univ_three] at h0 h1 h2
  exact ⟨h0, h1, h2⟩

/-- In an orthogonal 3x3 matrix of determinant 1 every diagonal entry is its own
cofactor. -/
theorem diag_cofactors_of_rotation [CommRing α] (m : Matrix3x3 α)
    (horth : m * m.transpose = 1) (hdet : m.det = 1) :
    m 0 0 = m 1 1 * m 2 2 - m 1 2 * m 2 1 ∧
    m 1 1 = m 0 0 * m 2 2 - m 0 2 * m 2 0 ∧
    m 2 2 = m 0 0 * m 1 1 - m 0 1 * m 1 0 := by
  have hadj : m.adjugate = m.transpose := by
    calc m.adjugate = m.adjugate * (m * m.transpose) := by rw [horth, Matrix.mul_one]
      _ = (m.adjugate * m) * m.transpose := (Matrix.mul_assoc _ _ _).symm
      _ = m.transpose := by rw [Matrix.adjugate_mul, hdet, one_smul, Matrix.one_mul]
  rw [Matrix.adjugate_fin_three] at hadj
  have h0 := congrFun (congrFun hadj 0) 0
  have h1 := congrFun (congrFun hadj 1) 1
  have h2 := congrFun (congrFun hadj 2) 2
  simp [Matrix.vecHead, Matrix.vecTail] at h0 h1 h2
  exact ⟨h0.symm, h1.symm, h2.symm⟩

/-- The squared norm of the four coefficients one branch of the conversion
produces from a square root s and three matrix combinations p, q, r. -/
theorem branch_squaredNorm [LinearOrderedField α] (s p q r : α) (hs : s ≠ 0)
    (h : p * p + q * q + r * r = (s * s) * (4 - s * s)) :
    (1 / 2 * s) * (1 / 2 * s) + (p * (1 / 2 / s)) * (p * (1 / 2 / s)) +
      (q * (1 / 2 / s)) * (q * (1 / 2 / s)) + (r * (1 / 2 / s)) * (r * (1 / 2 / s)) = 1 := by
  field_simp
  linear_combination (64 * s ^ 4) * h

/-- A square root of a positive number is not zero. -/
theorem sqrt_ne_zero_of_pos [LinearOrderedField α] (sqrt : α → α)
    (hsqrt : ∀ x, 0 ≤ x → sqrt x * sqrt x = x) (a : α) (ha : 0 < a) : sqrt a ≠ 0 := by
  intro h0
  have h := hsqrt a ha.le
  rw [h0, mul_zero] at h
  exact absurd h.symm ha.ne'

/-- The conversion applied to an orthogonal matrix of determinant 1 gives a
quaternion of squared norm 1, for any exact square root. -/
theorem quaternionFromMatrix_squaredNorm [LinearOrderedField α] (sqrt : α → α)
    (hsqrt : ∀ x, 0 ≤ x → sqrt x * sqrt x = x) (m : Matrix3x3 α)
    (horth : m * m.transpose = 1) (hdet : m.det = 1) :
    (quaternionFromMatrix sqrt m).squaredNorm = 1 := by
  obtain ⟨r0, r1, r2⟩ := row_norms_of_orthogonal m horth
  obtain ⟨c0, c1, c2⟩ := diag_cofactors_of_rotation m horth hdet
  unfold quaternionFromMatrix Quaternionf.squaredNorm
  by_cases ht : m 0 0 + m 1 1 + m 2 2 > 0
  · have ha : 0 < m 0 0 + m 1 1 + m 2 2 + 1 := by linarith
    have hs := hsqrt _ ha.le
    have hne := sqrt_ne_zero_of_pos sqrt hsqrt _ ha
    have hB : (m 2 1 - m 1 2) * (m 2 1 - m 1 2) + (m 0 2 - m 2 0) * (m 0 2 - m 2 0) +
        (m 1 0 - m 0 1) * (m 1 0 - m 0 1) =
        (sqrt (m 0 0 + m 1 1 + m 2 2 + 1) * sqrt (m 0 0 + m 1 1 + m 2 2 + 1)) *
          (4 - sqrt (m 0 0 + m 1 1 + m 2 2 + 1) * sqrt (m 0 0 + m 1 1 + m 2 2 + 1)) := by
      rw [hs]
      linear_combination r0 + r1 + r2 - 2 * c0 - 2 * c1 - 2 * c2
    simp only [ht, if_true]
    exact branch_squaredNorm _ _ _ _ hne hB
  · have ht0 : m 0 0 + m 1 1 + m 2 2 ≤ 0 := not_lt.1 ht
    simp only [ht, if_false]
    by_cases h1 : m 1 1 > m 0 0
    · by_cases h2 : m 2 2 > m 1 1
      · have ha : 0 < m 2 2 - m 0 0 - m 1 1 + 1 := by
          linarith
        have hs := hsqrt _ ha.le
        have hne := sqrt_ne_zero_of_pos sqrt hsqrt _ ha
        have hB : (m 1 0 - m 0 1) * (m 1 0 - m 0 1) +
            (m 0 2 + m 2 0) * (m 0 2 + m 2 0) +
            (m 1 2 + m 2 1) * (m 1 2 + m 2 1) =
            (sqrt (m 2 2 - m 0 0 - m 1 1 + 1) * sqrt (m 2 2 - m 0 0 - m 1 1 + 1)) *
              (4 - sqrt (m 2 2 - m 0 0 - m 1 1 + 1) * sqrt (m 2 2 - m 0 0 - m 1 1 + 1)) := by
          rw [hs]
          linear_combination r0 + r1 + r2 + 2 * c0 + 2 * c1 - 2 * c2
        have hn := branch_squaredNorm _ _ _ _ hne hB
        simp [h1, h2, Function.update]
        linear_combination hn
      · have ha : 0 < m 1 1 - m 2 2 - m 0 0 + 1 := by
          have := not_lt.1 h2
          linarith
        have hs := hsqrt _ ha.le
        have hne := sqrt_ne_zero_of_pos sqrt hsqrt _ ha
        have hB : (m 0 2 - m 2 0) * (m 0 2 - m 2 0) +
            (m 2 1 + m 1 2) * (m 2 1 + m 1 2) +
            (m 0 1 + m 1 0) * (m 0 1 + m 1 0) =
            (sqrt (m 1 1 - m 2 2 - m 0 0 + 1) * sqrt (m 1 1 - m 2 2 - m 0 0 + 1)) *
              (4 - sqrt (m 1 1 - m 2 2 - m 0 0 + 1) * sqrt (m 1 1 - m 2 2 - m 0 0 + 1)) := by
          rw [hs]
          linear_combination r0 + r1 + r2 + 2 * c0 - 2 * c1 + 2 * c2
        have hn := branch_squaredNorm _ _ _ _ hne hB
        simp [h1, h2, Function.update]
        linear_combination hn
    · by_cases h2 : m 2 2 > m 0 0
      · have ha : 0 < m 2 2 - m 0 0 - m 1 1 + 1 := by
          have := not_lt.1 h1
          linarith
        have hs := hsqrt _ ha.le
        have hne := sqrt_ne_zero_of_pos sqrt hsqrt _ ha
        have hB : (m 1 0 - m 0 1) * (m 1 0 - m 0 1) +
            (m 0 2 + m 2 0) * (m 0 2 + m 2 0) +
            (m 1 2 + m 2 1) * (m 1 2 + m 2 1) =
            (sqrt (m 2 2 - m 0 0 - m 1 1 + 1) * sqrt (m 2 2 - m 0 0 - m 1 1 + 1)) *
              (4 - sqrt (m 2 2 - m 0 0 - m 1 1 + 1) * sqrt (m 2 2 - m 0 0 - m 1 1 + 1)) := by
          rw [hs]
          linear_combination r0 + r1 + r2 + 2 * c0 + 2 * c1 - 2 * c2
        have hn := branch_squaredNorm _ _ _ _ hne hB
        simp [h1, h2, Function.update]
        linear_combination hn
      · have ha : 0 < m 0 0 - m 1 1 - m 2 2 + 1 := by
          have := not_lt.1 h1
          have := not_lt.1 h2
          linarith
        have hs := hsqrt _ ha.le
        have hne := sqrt_ne_zero_of_pos sqrt hsqrt _ ha
        have hB : (m 2 1 - m 1 2) * (m 2 1 - m 1 2) +
            (m 1 0 + m 0 1) * (m 1 0 + m 0 1) +
            (m 2 0 + m 0 2) * (m 2 0 + m 0 2) =
            (sqrt (m 0 0 - m 1 1 - m 2 2 + 1) * sqrt (m 0 0 - m 1 1 - m 2 2 + 1)) *
              (4 - sqrt (m 0 0 - m 1 1 - m 2 2 + 1) * sqrt (m 0 0 - m 1 1 - m 2 2 + 1)) := by
          rw [hs]
          linear_combination r0 + r1 + r2 - 2 * c0 + 2 * c1 + 2 * c2
        have hn := branch_squaredNorm _ _ _ _ hne hB
        simp [h1, h2, Function.update]
        linear_combination hn

/-- C8: when the conversion is the modelled Eigen routine with an exact square
root, then for every pose whose rotation block R is orthogonal with determinant
1 the one odometry record GrabRGBD publishes has as orientation the conversion
of RH, and its coefficients satisfy w^2 + x^2 + y^2 + z^2 = 1. -/
theorem odometry_orientation_unit_norm [LinearOrderedField α] (sqrt : α → α)
    (hsqrt : ∀ x, 0 ≤ x → sqrt x * sqrt x = x)
    (env : Env α τ Msg Img σ) (msgRGB msgD : Msg) (s : State σ)
    (cv_ptrRGB cv_ptrD : CvImage τ Img) (pose : Mat4 α)
    (hconv : env.Quaternionf = quaternionFromMatrix sqrt)
    (hRGB : env.toCvShare msgRGB = .ok cv_ptrRGB)
    (hD : env.toCvShare msgD = .ok cv_ptrD)
    (hpose : (env.TrackRGBD s.mpSLAM cv_ptrRGB.image cv_ptrD.image
      (env.toSec cv_ptrRGB.stamp)).1 = some pose)
    (horth : rotationBlock pose * (rotationBlock pose).transpose = 1)
    (hdet : (rotationBlock pose).det = 1) :
    (odometry (GrabRGBD env msgRGB msgD s).1).map (fun o => o.orientation) =
      [quaternionFromMatrix sqrt (rh_cameraPose pose)] ∧
    (odometry (GrabRGBD env msgRGB msgD s).1).map
        (fun o => o.orientation.w ^ 2 + o.orientation.x ^ 2 + o.orientation.y ^ 2 +
          o.orientation.z ^ 2) = [1] := by
  have hn := quaternionFromMatrix_squaredNorm sqrt hsqrt (rh_cameraPose pose)
    (rh_cameraPose_mul_transpose pose horth) (by rw [rh_cameraPose_det, hdet])
  have ht : temp pose = rh_cameraPose pose := rfl
  rw [GrabRGBD_of_pose env msgRGB msgD s cv_ptrRGB cv_ptrD pose hRGB hD hpose]
  simp only [odometry, List.map_cons, List.map_nil, hconv, ht, true_and]
  rw [List.cons.injEq]
  refine ⟨?_, rfl⟩
  simp only [Quaternionf.squaredNorm] at hn
  linear_combination hn

/-- C8 at a concrete input over the reals, with the real square root: the
engine returns the quarter turn about z, for which RH has trace -1 and the
conversion takes the branch of the largest diagonal entry. -/
theorem odometry_orientation_unit_norm_witness :
    ((!![0, -1, 0; 1, 0, 0; 0, 0, 1] : Matrix3x3 ℝ) *
        (!![0, -1, 0; 1, 0, 0; 0, 0, 1] : Matrix3x3 ℝ).transpose = 1 ∧
      (!![0, -1, 0; 1, 0, 0; 0, 0, 1] : Matrix3x3 ℝ).det = 1) ∧
    (odometry (GrabRGBD (constantPoseEnv (quaternionFromMatrix Real.sqrt)
        (poseOf (!![0, -1, 0; 1, 0, 0; 0, 0, 1] : Matrix3x3 ℝ) ![1, 2, 3])) 5 6 ⟨0, 0⟩).1).map
        (fun o => o.orientation.w ^ 2 + o.orientation.x ^ 2 + o.orientation.y ^ 2 +
          o.orientation.z ^ 2) = [1] := by
  have ho : (!![0, -1, 0; 1, 0, 0; 0, 0, 1] : Matrix3x3 ℝ) *
      (!![0, -1, 0; 1, 0, 0; 0, 0, 1] : Matrix3x3 ℝ).transpose = 1 := by
    ext i j
    fin_cases i <;> fin_cases j <;>
      simp [Matrix.mul_apply, Fin.sum_univ_three, Matrix.vecHead, Matrix.vecTail]
  have hd : (!![0, -1, 0; 1, 0, 0; 0, 0, 1] : Matrix3x3 ℝ).det = 1 := by
    simp [Matrix.det_fin_three]
  exact ⟨⟨ho, hd⟩,
    (odometry_orientation_unit_norm Real.sqrt (fun x hx => Real.mul_self_sqrt hx)
      (constantPoseEnv (quaternionFromMatrix Real.sqrt)
        (poseOf (!![0, -1, 0; 1, 0, 0; 0, 0, 1] : Matrix3x3 ℝ) ![1, 2, 3])) 5 6 ⟨0, 0⟩
      ⟨5, 5⟩ ⟨6, 6⟩ (poseOf (!![0, -1, 0; 1, 0, 0; 0, 0, 1] : Matrix3x3 ℝ) ![1, 2, 3])
      rfl rfl rfl rfl
      (by rw [rotationBlock_poseOf]; exact ho)
      (by rw [rotationBlock_poseOf]; exact hd)).2⟩

end Theorems

end ORB_SLAM2
